import Mathlib

/-!
Verification of the SCP forwarder of `ssh_proxy_server/forwarders/scp.py`
(an SSH man-in-the-middle proxy).  The Python code is shallowly embedded:
traffic chunks are modelled at the UTF-8-decoded level as `List Char`,
machine integers as `Nat` (all sizes parsed from `[0-9]+` are non-negative
and Python ints are unbounded), and the effectful parts (`forward`'s
multiplex loop, `close_session`) as explicit state passing plus event lists.
-/

namespace SCPProxy

/-- Python `re` whitespace class `\s` on a `str` pattern: the characters
for which `str.isspace` holds — `0x09`-`0x0d`, `0x1c`-`0x1f`, space,
next-line `0x85`, no-break space `0xa0`, and the Unicode space separators
`0x1680`, `0x2000`-`0x200a`, `0x2028`, `0x2029`, `0x202f`, `0x205f`,
`0x3000`. -/
def isReSpace (c : Char) : Bool :=
  let n := c.toNat
  (0x09 ≤ n && n ≤ 0x0d) || (0x1c ≤ n && n ≤ 0x1f) || n = 0x20 ||
    n = 0x85 || n = 0xa0 || n = 0x1680 ||
    (0x2000 ≤ n && n ≤ 0x200a) || n = 0x2028 || n = 0x2029 ||
    n = 0x202f || n = 0x205f || n = 0x3000

/-- Character class `[0-7]` of the mode group. -/
def isOctalDigit (c : Char) : Bool :=
  '0' ≤ c && c ≤ '7'

/-- Character class `[0-9]` of the size group. -/
def isDecDigit (c : Char) : Bool :=
  '0' ≤ c && c ≤ '9'

/-- Value of a decimal digit string, as Python's `int` on a `[0-9]+` match. -/
def digitsToNat (ds : List Char) : Nat :=
  ds.foldl (fun acc c => acc * 10 + (c.toNat - '0'.toNat)) 0

/-- The four capture groups of a successful match of
`re.match(r"([CD])([0-7]{4})\s([0-9]+)\s(.*)\n", command)`, with the size
group already converted by `int(...)`. -/
structure CDMatch where
  cmd : Char
  mode : String
  size : Nat
  name : String
  deriving Repr, DecidableEq

/-- Embedding of `re.match(r"([CD])([0-7]{4})\s([0-9]+)\s(.*)\n", command)`.
`re.match` anchors at the start only, so trailing input after the matched
`\n` is ignored.  `[0-9]+\s` is deterministic because the digit and
whitespace classes are disjoint, and `(.*)\n` captures exactly the run of
non-newline characters up to the first `\n` (`.` does not match `\n`). -/
def matchCDLine : List Char → Option CDMatch
  | c :: m1 :: m2 :: m3 :: m4 :: w :: rest =>
    if (c = 'C' || c = 'D') && isOctalDigit m1 && isOctalDigit m2 &&
        isOctalDigit m3 && isOctalDigit m4 && isReSpace w then
      let digits := rest.takeWhile isDecDigit
      let afterDigits := rest.dropWhile isDecDigit
      if digits.isEmpty then none
      else
        match afterDigits with
        | w2 :: afterSep =>
          if isReSpace w2 then
            let name := afterSep.takeWhile (fun ch => ch ≠ '\n')
            let afterName := afterSep.dropWhile (fun ch => ch ≠ '\n')
            match afterName with
            | nl :: _ =>
              if nl = '\n' then
                some ⟨c, String.mk [m1, m2, m3, m4], digitsToNat digits,
                      String.mk name⟩
              else none
            | [] => none
          else none
        | [] => none
    else none
  | _ => none

/-- The mutable fields of an `SCPForwarder` instance (`__init__`). -/
structure SCPState where
  await_response : Bool
  bytes_remaining : Nat
  bytes_to_write : Nat
  file_command : Option String
  file_mode : Option String
  file_size : Nat
  file_name : String
  got_c_command : Bool
  deriving Repr, DecidableEq

/-- The state set up by `SCPForwarder.__init__`. -/
def freshState : SCPState :=
  { await_response := false
    bytes_remaining := 0
    bytes_to_write := 0
    file_command := none
    file_mode := none
    file_size := 0
    file_name := ""
    got_c_command := false }

/-- A UTF-8 continuation byte `0x80`-`0xbf`. -/
def isContByte (b : Nat) : Bool := 0x80 ≤ b && b ≤ 0xbf

/-- Lower bound of the first continuation byte of a multi-byte UTF-8
sequence: strict decoding tightens it to `0xa0` after lead `0xe0` and to
`0x90` after lead `0xf0` (rejecting overlong forms). -/
def utf8Cont1Lo (b : Nat) : Nat :=
  if b = 0xe0 then 0xa0 else if b = 0xf0 then 0x90 else 0x80

/-- Upper bound of the first continuation byte: strict decoding tightens
it to `0x9f` after lead `0xed` (rejecting surrogates) and to `0x8f` after
lead `0xf4` (rejecting code points above `0x10ffff`). -/
def utf8Cont1Hi (b : Nat) : Nat :=
  if b = 0xed then 0x9f else if b = 0xf4 then 0x8f else 0xbf

/-- Strict UTF-8 decoding of a byte chunk, as Python's
`traffic.decode('utf-8')`: `none` models a raised `UnicodeDecodeError`
(invalid lead byte, overlong form, surrogate, out-of-range code point, or
truncated sequence). -/
def utf8Decode : List Nat → Option (List Char)
  | [] => some []
  | b :: bs =>
    if b ≤ 0x7f then
      (utf8Decode bs).map (Char.ofNat b :: ·)
    else if 0xc2 ≤ b && b ≤ 0xdf then
      match bs with
      | b2 :: bs2 =>
        if isContByte b2 then
          (utf8Decode bs2).map
            (Char.ofNat ((b - 0xc0) * 0x40 + (b2 - 0x80)) :: ·)
        else none
      | [] => none
    else if 0xe0 ≤ b && b ≤ 0xef then
      match bs with
      | b2 :: b3 :: bs3 =>
        if (utf8Cont1Lo b ≤ b2 && b2 ≤ utf8Cont1Hi b) && isContByte b3 then
          (utf8Decode bs3).map
            (Char.ofNat ((b - 0xe0) * 0x1000 + (b2 - 0x80) * 0x40 +
              (b3 - 0x80)) :: ·)
        else none
      | _ => none
    else if 0xf0 ≤ b && b ≤ 0xf4 then
      match bs with
      | b2 :: b3 :: b4 :: bs4 =>
        if (utf8Cont1Lo b ≤ b2 && b2 ≤ utf8Cont1Hi b) && isContByte b3 &&
            isContByte b4 then
          (utf8Decode bs4).map
            (Char.ofNat ((b - 0xf0) * 0x40000 + (b2 - 0x80) * 0x1000 +
              (b3 - 0x80) * 0x40 + (b4 - 0x80)) :: ·)
        else none
      | _ => none
    else none

/-- Embedding of the body of `SCPForwarder.handle_command` after the
decode step (`command = traffic.decode('utf-8')` is modelled separately by
`utf8Decode`; here the chunk is the decoded text).  The method first
clears `got_c_command`, and on a `C`/`D` line sets all file fields; the
`E` and `T` branches only log and are therefore invisible in the
embedding.  The chunk is always returned unchanged. -/
def handle_command (st : SCPState) (traffic : List Char) :
    SCPState × List Char :=
  let st0 := { st with got_c_command := false }
  match matchCDLine traffic with
  | none => (st0, traffic)
  | some m =>
    ({ st0 with
        got_c_command := true
        file_command := some (String.mk [m.cmd])
        file_mode := some m.mode
        bytes_remaining := m.size
        file_size := m.size
        file_name := m.name
        await_response := true },
      traffic)

/-- `SCPForwarder.handle_command` on the raw byte chunk it receives: the
method's first effectful step is `traffic.decode('utf-8')`, so an
undecodable chunk raises before any state is touched (`none`); otherwise
the decoded text drives the state update and the original byte chunk is
returned. -/
def handle_command_bytes (st : SCPState) (traffic : List Nat) :
    Option (SCPState × List Nat) :=
  match utf8Decode traffic with
  | none => none
  | some cs => some ((handle_command st cs).1, traffic)

/-- Embedding of `SCPForwarder.process_data` (identity hook). -/
def process_data (traffic : List Char) : List Char := traffic

/-- Embedding of `SCPForwarder.process_response` (identity hook). -/
def process_response (traffic : List Char) : List Char := traffic

/-- Embedding of `SCPForwarder.handle_traffic`.  `isScp` is the test
`self.session.scp_command.startswith(b'scp')`; `isclient` is the second
parameter of the Python method, which the body never reads. -/
def handle_traffic (isScp : Bool) (st : SCPState) (traffic : List Char)
    (isclient : Bool) : SCPState × List Char :=
  if !isScp then (st, traffic)
  else if st.await_response then
    ({ st with await_response := false }, process_response traffic)
  else if st.bytes_remaining == 0 && !st.got_c_command then
    handle_command st traffic
  else
    ({ st with got_c_command := false }, process_data traffic)

/-- Which of the three handlers `handle_traffic` dispatches to, as a
function of the state alone (the dispatch never inspects the chunk). -/
inductive Route where
  | response
  | command
  | data
  deriving Repr, DecidableEq

/-- The dispatch decision of `handle_traffic` when the command is `scp`. -/
def route (st : SCPState) : Route :=
  if st.await_response then Route.response
  else if st.bytes_remaining == 0 && !st.got_c_command then Route.command
  else Route.data

/-- Fold `handle_traffic` over a sequence of (chunk, isclient) pairs, as the
multiplex loop of `forward` does for each inbound chunk. -/
def runChunks (isScp : Bool) (st : SCPState) :
    List (List Char × Bool) → SCPState
  | [] => st
  | (c, b) :: rest => runChunks isScp (handle_traffic isScp st c b).1 rest

/-- Spec condition "awaiting a control line": none of the flags that divert
dispatch away from `handle_command` is set. -/
def awaitingCommandLine (st : SCPState) : Prop :=
  st.await_response = false ∧ st.bytes_remaining = 0 ∧
    st.got_c_command = false

/-- Spec condition "awaiting a response byte". -/
def awaitingResponseCond (st : SCPState) : Prop :=
  st.await_response = true

/-- Spec condition "streaming payload": bytes remaining or the
pending-command flag set. -/
def streamingPayload (st : SCPState) : Prop :=
  st.bytes_remaining ≠ 0 ∨ st.got_c_command = true

/-- One run of `SCPBaseForwarder.sendall`'s while loop.  `fuel` bounds the
number of iterations (the Python loop is unbounded; `none` marks the bound
exhausted, i.e. a run that has not terminated within `fuel` iterations).
The result pairs the returned value with the number of calls made to
`sendfunc`. -/
def sendallLoop (sendfunc : List Nat → Nat) (data : List Nat) :
    Nat → Nat → Nat → Option (Nat × Nat)
  | 0, _, _ => none
  | fuel + 1, sent, calls =>
    if sent = data.length then some (sent, calls)
    else
      let newsent := sendfunc (data.drop sent)
      if newsent = 0 then some (0, calls + 1)
      else sendallLoop sendfunc data fuel (sent + newsent) (calls + 1)

/-- Embedding of `SCPBaseForwarder.sendall`.  `exitReady` is the result of
`channel.exit_status_ready()`; bytes are `Nat`s; the send primitive
`sendfunc` is modelled as a function of the unsent remainder `data[sent:]`
it is called with. -/
def sendall (exitReady : Bool) (sendfunc : List Nat → Nat) (data : List Nat)
    (fuel : Nat) : Option (Nat × Nat) :=
  if data = [] then some (0, 0)
  else if exitReady then some (0, 0)
  else sendallLoop sendfunc data fuel 0 0

/-- An SSH channel as `close_session` observes and mutates it (the fields
of the external library's channel object that the method reads): the
`closed` and `eof_received` flags and the local/remote channel ids. -/
structure Channel where
  closed : Bool
  eof_received : Bool
  chanid : Nat
  remote_chanid : Nat
  deriving Repr, DecidableEq

/-- One SSH channel-control message as built by `close_session` with
`Message()` and transmitted via `transport._send_user_message`. -/
inductive ControlMsg where
  | chanEof (remoteId : Nat)
  | chanRequest (remoteId : Nat) (ext : String) (wantReply : Bool)
  | chanClose (remoteId : Nat)
  deriving Repr, DecidableEq

/-- Observable effects of `close_session`, in program order. -/
inductive CloseEvent where
  | send (m : ControlMsg)
  | unlinkChannel (localId : Nat)
  | superCloseSession
  deriving Repr, DecidableEq

/-- Embedding of `SCPBaseForwarder.close_session`.  `channel._unlink()` is
the external SSH library's teardown hook: it marks the channel closed and
detaches `chanid` from the transport's channel table (the `unlinkChannel`
event).  The trailing call to the generic `BaseForwarder.close_session`
collaborator is modelled as the opaque `superCloseSession` event (spec:
idempotent bookkeeping, accepts an already-partially-closed channel). -/
def close_session (ch : Channel) : List CloseEvent × Channel :=
  if ch.closed then ([], ch)
  else
    ((if !ch.eof_received then
        [CloseEvent.send (ControlMsg.chanEof ch.remote_chanid),
         CloseEvent.send
           (ControlMsg.chanRequest ch.remote_chanid "eow@openssh.com" false)]
      else []) ++
      [CloseEvent.send (ControlMsg.chanClose ch.remote_chanid),
       CloseEvent.unlinkChannel ch.chanid,
       CloseEvent.superCloseSession],
      { ch with closed := true })

/-- Observable actions of the exit-status checks at the tail of one
iteration of `forward`'s multiplex loop. -/
inductive ForwardEvent where
  | sendExitStatusToClient (status : Nat)
  | closeClientSession
  | logRemoteExit (status : Nat)
  | breakLoop
  deriving Repr, DecidableEq

/-- Embedding of the two exit-status branches of `SCPBaseForwarder.forward`
(lines 72-85): the server-side channel is checked first; on server exit
status the value is propagated via `send_exit_status`, the client channel is
closed with `close_session`, the exit is logged and the loop breaks; on
client exit status the value is received but discarded, the client channel
is closed and the loop breaks.  `clientStatus` is the discarded value. -/
def exitStatusChecks (serverExitReady : Bool) (serverStatus : Nat)
    (clientExitReady : Bool) (clientStatus : Nat) : List ForwardEvent :=
  if serverExitReady then
    [ForwardEvent.sendExitStatusToClient serverStatus,
     ForwardEvent.closeClientSession,
     ForwardEvent.logRemoteExit serverStatus,
     ForwardEvent.breakLoop]
  else if clientExitReady then
    [ForwardEvent.closeClientSession,
     ForwardEvent.breakLoop]
  else []

instance (st : SCPState) : Decidable (awaitingCommandLine st) :=
  inferInstanceAs (Decidable (_ ∧ _ ∧ _))

instance (st : SCPState) : Decidable (awaitingResponseCond st) :=
  inferInstanceAs (Decidable (_ = _))

instance (st : SCPState) : Decidable (streamingPayload st) :=
  inferInstanceAs (Decidable (_ ∨ _))

/-! ## Helper lemmas -/

/-- Clearing an already-clear `got_c_command` flag leaves the state intact. -/
theorem eta_got (st : SCPState) (hg : st.got_c_command = false) :
    ({ st with got_c_command := false } : SCPState) = st := by
  cases st
  simp_all

/-- One `handle_traffic` step preserves "`await_response` implies
`got_c_command`": the only transition that raises `await_response` is a
parsed `C`/`D` line, which raises `got_c_command` with it. -/
theorem step_await_imp_got (st : SCPState) (c : List Char) (b : Bool) :
    (handle_traffic true st c b).1.await_response = true →
      (handle_traffic true st c b).1.got_c_command = true := by
  by_cases h1 : st.await_response
  · simp [handle_traffic, h1]
  · by_cases h2 : st.bytes_remaining == 0 && !st.got_c_command
    · cases hm : matchCDLine c <;>
        simp [handle_traffic, h1, h2, handle_command, hm]
    · simp [handle_traffic, h1, h2]

/-- The invariant of `step_await_imp_got`, carried along a whole run. -/
theorem runChunks_await_imp_got (chunks : List (List Char × Bool))
    (st : SCPState)
    (h : st.await_response = true → st.got_c_command = true) :
    (runChunks true st chunks).await_response = true →
      (runChunks true st chunks).got_c_command = true := by
  induction chunks generalizing st with
  | nil => simpa [runChunks] using h
  | cons p rest ih =>
    obtain ⟨c, b⟩ := p
    simpa [runChunks] using ih _ (step_await_imp_got st c b)

/-- In a streaming state (no response pending, bytes remaining) a chunk is
handled by `process_data` and only `got_c_command` is cleared. -/
theorem data_route_step (st : SCPState) (c : List Char) (b : Bool)
    (h1 : st.await_response = false) (h2 : st.bytes_remaining ≠ 0) :
    (handle_traffic true st c b).1 = { st with got_c_command := false } := by
  simp [handle_traffic, h1, h2]

/-- A streaming state absorbs every further chunk: `await_response` stays
clear and `bytes_remaining` keeps its value across any run. -/
theorem runChunks_streaming (chunks : List (List Char × Bool))
    (st : SCPState) (h1 : st.await_response = false)
    (h2 : st.bytes_remaining ≠ 0) :
    (runChunks true st chunks).await_response = false ∧
    (runChunks true st chunks).bytes_remaining = st.bytes_remaining := by
  induction chunks generalizing st with
  | nil => exact ⟨h1, rfl⟩
  | cons p rest ih =>
    obtain ⟨c, b⟩ := p
    have hstep := data_route_step st c b h1 h2
    have := ih { st with got_c_command := false } (by simpa using h1)
      (by simpa using h2)
    simpa [runChunks, hstep] using this

/-- If every call to the send primitive makes progress bounded by the
remainder, the `sendall` loop terminates with the whole buffer sent. -/
theorem sendallLoop_complete (sendfunc : List Nat → Nat) (data : List Nat)
    (hsend : ∀ l : List Nat, l ≠ [] →
      0 < sendfunc l ∧ sendfunc l ≤ l.length) :
    ∀ (fuel sent calls : Nat), sent ≤ data.length →
      data.length - sent < fuel →
      ∃ k, sendallLoop sendfunc data fuel sent calls =
        some (data.length, calls + k) := by
  intro fuel
  induction fuel with
  | zero => intro sent calls _ hcontra; omega
  | succ f ih =>
    intro sent calls hle hfuel
    by_cases hdone : sent = data.length
    · exact ⟨0, by simp [sendallLoop, hdone]⟩
    · have hlt : sent < data.length := lt_of_le_of_ne hle hdone
      have hdropne : data.drop sent ≠ [] := by
        intro hnil
        have := List.length_drop sent data
        rw [hnil] at this
        simp at this
        omega
      obtain ⟨hpos, hbound⟩ := hsend (data.drop sent) hdropne
      rw [List.length_drop] at hbound
      have hns : sendfunc (data.drop sent) ≠ 0 := Nat.pos_iff_ne_zero.mp hpos
      obtain ⟨k, hk⟩ := ih (sent + sendfunc (data.drop sent)) (calls + 1)
        (by omega) (by omega)
      refine ⟨k + 1, ?_⟩
      rw [show calls + (k + 1) = calls + 1 + k by omega]
      simpa [sendallLoop, hdone, hns] using hk

/-! ## Claim theorems -/

/-- Claim C1: on a chunk matching the `C`/`D` control-line grammar,
`handle_command` sets `file_command` to the leading letter, `file_mode` to
the four-digit mode, `file_size` and `bytes_remaining` to the parsed size,
`file_name` to the name, raises the pending-command flag `got_c_command`
and `await_response`, and returns the chunk unchanged; the resulting state
dispatches the next inbound chunk to the response handler. -/
theorem handle_command_cd_line (st : SCPState) (c : List Char) (m : CDMatch)
    (h : matchCDLine c = some m) :
    handle_command st c =
      ({ st with
          got_c_command := true
          file_command := some (String.mk [m.cmd])
          file_mode := some m.mode
          bytes_remaining := m.size
          file_size := m.size
          file_name := m.name
          await_response := true }, c) ∧
    route (handle_command st c).1 = Route.response := by
  constructor
  · simp [handle_command, h]
  · simp [handle_command, h, route]

theorem handle_command_cd_line_witness :
    matchCDLine ("C0644 13 test.txt\n".toList) =
      some ⟨'C', "0644", 13, "test.txt"⟩ ∧
    (handle_command freshState ("C0644 13 test.txt\n".toList) =
      ({ freshState with
          got_c_command := true
          file_command := some "C"
          file_mode := some "0644"
          bytes_remaining := 13
          file_size := 13
          file_name := "test.txt"
          await_response := true }, "C0644 13 test.txt\n".toList) ∧
      route (handle_command freshState ("C0644 13 test.txt\n".toList)).1 =
        Route.response) :=
  ⟨by decide,
   handle_command_cd_line freshState ("C0644 13 test.txt\n".toList)
     ⟨'C', "0644", 13, "test.txt"⟩ (by decide)⟩

/-- Claim C2: with a destination channel not reporting exit status and a
non-empty buffer, if every call to the send primitive writes a positive
number of the offered bytes, `sendall` loops on the unsent remainder until
the whole buffer is written and returns its full length; concretely, a
4-bytes-per-call primitive against a 10-byte buffer makes exactly 3 calls
(4+4+2) and `sendall` returns 10. -/
theorem sendall_sends_whole_buffer :
    (∀ (sendfunc : List Nat → Nat) (data : List Nat),
      data ≠ [] →
      (∀ l : List Nat, l ≠ [] → 0 < sendfunc l ∧ sendfunc l ≤ l.length) →
      Option.map Prod.fst
          (sendall false sendfunc data (data.length + 1)) =
        some data.length) ∧
    sendall false (fun l => min 4 l.length) (List.range 10) 11 =
      some (10, 3) := by
  constructor
  · intro sendfunc data hne hsend
    obtain ⟨k, hk⟩ := sendallLoop_complete sendfunc data hsend
      (data.length + 1) 0 0 (Nat.zero_le _) (by omega)
    have hsa : sendall false sendfunc data (data.length + 1) =
        some (data.length, k) := by
      simpa [sendall, hne] using hk
    simp [hsa]
  · decide

theorem sendall_sends_whole_buffer_witness :
    Option.map Prod.fst
        (sendall false (fun l => min 4 l.length) (List.range 10) 11) =
      some 10 := by
  have h := sendall_sends_whole_buffer.1 (fun l => min 4 l.length)
    (List.range 10) (by decide)
    (fun l hl => ⟨Nat.lt_min.mpr ⟨by norm_num, List.length_pos.mpr hl⟩,
      Nat.min_le_right _ _⟩)
  simpa using h

/-- Claim C3: on a channel that is not already closed, `close_session`
emits exactly: when no EOF was received, a channel-EOF message for the
remote id followed by a channel-request for extension `eow@openssh.com`
with want-reply false; then in all cases a channel-close message; then the
detach of the channel from the transport's channel table; and only then
the call into the generic session-close collaborator. -/
theorem close_session_sequence (ch : Channel) (h : ch.closed = false) :
    (close_session ch).1 =
      (if ch.eof_received then [] else
        [CloseEvent.send (ControlMsg.chanEof ch.remote_chanid),
         CloseEvent.send
           (ControlMsg.chanRequest ch.remote_chanid "eow@openssh.com"
             false)]) ++
      [CloseEvent.send (ControlMsg.chanClose ch.remote_chanid),
       CloseEvent.unlinkChannel ch.chanid,
       CloseEvent.superCloseSession] := by
  cases he : ch.eof_received <;> simp [close_session, h, he]

theorem close_session_sequence_witness :
    (close_session ⟨false, false, 3, 7⟩).1 =
      [CloseEvent.send (ControlMsg.chanEof 7),
       CloseEvent.send (ControlMsg.chanRequest 7 "eow@openssh.com" false),
       CloseEvent.send (ControlMsg.chanClose 7),
       CloseEvent.unlinkChannel 3,
       CloseEvent.superCloseSession] :=
  close_session_sequence ⟨false, false, 3, 7⟩ rfl

/-- Claim C4: when the server-side channel reports exit status, the same
status is sent to the client-side channel and the client channel is closed
before the loop breaks; when only the client-side channel reports exit
status, the loop closes the client channel and breaks without forwarding
any status value. -/
theorem exit_status_branches (sReady cReady : Bool)
    (sStatus cStatus : Nat) :
    (sReady = true →
      exitStatusChecks sReady sStatus cReady cStatus =
        [ForwardEvent.sendExitStatusToClient sStatus,
         ForwardEvent.closeClientSession,
         ForwardEvent.logRemoteExit sStatus,
         ForwardEvent.breakLoop]) ∧
    (sReady = false → cReady = true →
      exitStatusChecks sReady sStatus cReady cStatus =
        [ForwardEvent.closeClientSession, ForwardEvent.breakLoop] ∧
      ∀ s : Nat, ForwardEvent.sendExitStatusToClient s ∉
        exitStatusChecks sReady sStatus cReady cStatus) := by
  refine ⟨fun h => by simp [exitStatusChecks, h], fun h1 h2 => ⟨?_, ?_⟩⟩
  · simp [exitStatusChecks, h1, h2]
  · intro s
    simp [exitStatusChecks, h1, h2]

theorem exit_status_branches_witness :
    exitStatusChecks true 7 false 0 =
      [ForwardEvent.sendExitStatusToClient 7,
       ForwardEvent.closeClientSession,
       ForwardEvent.logRemoteExit 7,
       ForwardEvent.breakLoop] ∧
    exitStatusChecks false 0 true 5 =
      [ForwardEvent.closeClientSession, ForwardEvent.breakLoop] :=
  ⟨(exit_status_branches true false 7 0).1 rfl,
   ((exit_status_branches false true 0 5).2 rfl rfl).1⟩

/-- Claim C5 (amended): in every state reachable from the fresh forwarder,
"awaiting a control line" excludes the other two conditions, but "awaiting
a response byte" does not exclude "streaming payload" — it implies it,
because the pending-command flag raised together with `await_response`
stays set until the response chunk is consumed. -/
theorem reachable_condition_overlap (chunks : List (List Char × Bool)) :
    (awaitingCommandLine (runChunks true freshState chunks) →
      ¬ awaitingResponseCond (runChunks true freshState chunks) ∧
      ¬ streamingPayload (runChunks true freshState chunks)) ∧
    (awaitingResponseCond (runChunks true freshState chunks) →
      streamingPayload (runChunks true freshState chunks)) := by
  constructor
  · rintro ⟨h1, h2, h3⟩
    refine ⟨?_, ?_⟩
    · simp [awaitingResponseCond, h1]
    · simp [streamingPayload, h2, h3]
  · intro h
    exact Or.inr
      (runChunks_await_imp_got chunks freshState (by simp [freshState]) h)

theorem reachable_condition_overlap_witness :
    streamingPayload
      (runChunks true freshState [("C0644 13 test.txt\n".toList, true)]) :=
  (reachable_condition_overlap [("C0644 13 test.txt\n".toList, true)]).2
    (by decide)

/-- Claim C5 counterexample: after one reachable step — parsing the line
`C0644 13 test.txt` from the fresh state — the conditions "awaiting a
response byte" and "streaming payload" hold simultaneously, refuting
"at most one of the three conditions holds at any instant". -/
theorem response_and_streaming_cohold :
    awaitingResponseCond
      (runChunks true freshState [("C0644 13 test.txt\n".toList, true)]) ∧
    streamingPayload
      (runChunks true freshState [("C0644 13 test.txt\n".toList, true)]) :=
  ⟨by decide, by decide⟩

/-- Claim C6 (amended): `handle_traffic` never reads its `isclient`
parameter, so the state machine is driven identically by inbound chunks
from either side — a server-side chunk (`isclient = false`) causes the
same transition and rewrite as a client-side one. -/
theorem handle_traffic_ignores_isclient (isScp : Bool) (st : SCPState)
    (c : List Char) (b b' : Bool) :
    handle_traffic isScp st c b = handle_traffic isScp st c b' := rfl

/-- Claim C6 counterexample: a `C` control line processed with
`isclient = false` mutates the forwarder state, refuting "handle_traffic
leaves the state fields unchanged for chunks with isClient=false". -/
theorem handle_traffic_server_side_mutates :
    (handle_traffic true freshState ("C0644 13 test.txt\n".toList)
      false).1 ≠ freshState := by
  decide

/-- Claim C7: `bytes_remaining` is never decremented — a `handle_traffic`
step either leaves it unchanged or assigns it the size parsed from a
`C`/`D` line (and construction sets it to 0); consequently once a state
has no response pending and nonzero `bytes_remaining`, every further chunk
is routed to `process_data` and `bytes_remaining` keeps its value, so the
machine never returns to parsing a control line. -/
theorem bytes_remaining_only_assigned :
    freshState.bytes_remaining = 0 ∧
    (∀ (isScp : Bool) (st : SCPState) (c : List Char) (b : Bool),
      (handle_traffic isScp st c b).1.bytes_remaining = st.bytes_remaining ∨
      ∃ m : CDMatch, matchCDLine c = some m ∧
        (handle_traffic isScp st c b).1.bytes_remaining = m.size) ∧
    (∀ st : SCPState, st.await_response = false → st.bytes_remaining ≠ 0 →
      ∀ chunks : List (List Char × Bool),
        (runChunks true st chunks).bytes_remaining = st.bytes_remaining ∧
        route (runChunks true st chunks) = Route.data) := by
  refine ⟨rfl, ?_, ?_⟩
  · intro isScp st c b
    by_cases hs : isScp
    · subst hs
      by_cases h1 : st.await_response
      · left; simp [handle_traffic, h1]
      · by_cases h2 : st.bytes_remaining == 0 && !st.got_c_command
        · cases hm : matchCDLine c with
          | none => left; simp [handle_traffic, h1, h2, handle_command, hm]
          | some m =>
            refine Or.inr ⟨m, rfl, ?_⟩
            simp [handle_traffic, h1, h2, handle_command, hm]
        · left; simp [handle_traffic, h1, h2]
    · left
      simp [handle_traffic, hs]
  · intro st h1 h2 chunks
    obtain ⟨ha, hb⟩ := runChunks_streaming chunks st h1 h2
    refine ⟨hb, ?_⟩
    have hrem : (runChunks true st chunks).bytes_remaining ≠ 0 := by
      rw [hb]; exact h2
    simp [route, ha, hrem]

theorem bytes_remaining_only_assigned_witness :
    route (runChunks true
      (runChunks true freshState
        [("C0644 13 test.txt\n".toList, true), ([' '], true)])
      [("hello".toList, true)]) = Route.data :=
  (bytes_remaining_only_assigned.2.2
    (runChunks true freshState
      [("C0644 13 test.txt\n".toList, true), ([' '], true)])
    (by decide) (by decide) [("hello".toList, true)]).2

/-- Claim C8 counterexample: the chunk `b"\xff\n"` does not match the
control-line grammar, yet `handle_command` does not return it unmodified —
its first step `traffic.decode('utf-8')` raises `UnicodeDecodeError`
(modelled as `none`), refuting "no exception is raised" for every
non-matching chunk. -/
theorem undecodable_chunk_raises :
    utf8Decode [0xff, 0x0a] = none ∧
    handle_command_bytes freshState [0xff, 0x0a] = none :=
  ⟨by decide, by decide⟩

/-- Claim C8 (amended): a byte chunk that decodes as UTF-8 and whose
decoded text does not match the `C`/`D` control-line grammar
(end-of-directory `E`, timestamp `T` lines, malformed lines) is returned
unmodified by `handle_command` with no state mutation and no exception —
stated for entry states with the pending-command flag clear, which is
every state in which `handle_traffic` dispatches to `handle_command`; in
such a state `handle_traffic` on the decoded text is also the identity.
A chunk that is not valid UTF-8 instead raises from the decode step. -/
theorem handle_command_nonmatching (st : SCPState) (bs : List Nat)
    (cs : List Char) (b : Bool) (hg : st.got_c_command = false)
    (hdec : utf8Decode bs = some cs) (h : matchCDLine cs = none) :
    handle_command_bytes st bs = some (st, bs) ∧
    handle_command st cs = (st, cs) ∧
    (st.await_response = false → st.bytes_remaining = 0 →
      handle_traffic true st cs b = (st, cs)) := by
  have h1 : handle_command st cs = (st, cs) := by
    simp [handle_command, h, eta_got st hg]
  refine ⟨?_, h1, fun ha hb => ?_⟩
  · simp [handle_command_bytes, hdec, h1]
  · simp [handle_traffic, ha, hb, hg, h1]

theorem handle_command_nonmatching_witness :
    handle_command_bytes freshState ("E\n".toList.map Char.toNat) =
      some (freshState, "E\n".toList.map Char.toNat) ∧
    handle_command_bytes freshState
        ("T1610000000 0 1610000000 0\n".toList.map Char.toNat) =
      some (freshState,
        "T1610000000 0 1610000000 0\n".toList.map Char.toNat) ∧
    handle_command_bytes freshState ("X garbage\n".toList.map Char.toNat) =
      some (freshState, "X garbage\n".toList.map Char.toNat) :=
  ⟨(handle_command_nonmatching freshState ("E\n".toList.map Char.toNat)
      ("E\n".toList) true rfl (by decide) (by decide)).1,
   (handle_command_nonmatching freshState
      ("T1610000000 0 1610000000 0\n".toList.map Char.toNat)
      ("T1610000000 0 1610000000 0\n".toList) true rfl (by decide)
      (by decide)).1,
   (handle_command_nonmatching freshState
      ("X garbage\n".toList.map Char.toNat) ("X garbage\n".toList) true rfl
      (by decide) (by decide)).1⟩

/-- Claim C9: on a non-empty buffer with the destination channel not
reporting exit status, if the first call to the send primitive reports
zero bytes written then `sendall` returns 0 after exactly one call to the
primitive, abandoning the remainder. -/
theorem sendall_zero_progress_aborts (sendfunc : List Nat → Nat)
    (data : List Nat) (fuel : Nat) (hne : data ≠ [])
    (h0 : sendfunc data = 0) (hf : 0 < fuel) :
    sendall false sendfunc data fuel = some (0, 1) := by
  rcases fuel with _ | f
  · omega
  · have hlen : data.length ≠ 0 := by simpa using hne
    have hzl : (0 : Nat) ≠ data.length := fun h => hlen h.symm
    simp [sendall, hne, sendallLoop, hzl, h0]

theorem sendall_zero_progress_aborts_witness :
    sendall false (fun _ => 0) [3, 1, 4] 4 = some (0, 1) :=
  sendall_zero_progress_aborts (fun _ => 0) [3, 1, 4] 4 (by decide) rfl
    (by decide)

/-- Claim C10: `close_session` is idempotent — on an already-closed channel
it emits no events and leaves the channel untouched, and since a first call
marks the channel closed, a second call in succession does nothing. -/
theorem close_session_idempotent (ch : Channel) :
    (ch.closed = true → close_session ch = ([], ch)) ∧
    close_session (close_session ch).2 = ([], (close_session ch).2) := by
  constructor
  · intro h
    simp [close_session, h]
  · by_cases h : ch.closed
    · simp [close_session, h]
    · simp [close_session, h]

theorem close_session_idempotent_witness :
    close_session ⟨true, false, 1, 2⟩ = ([], ⟨true, false, 1, 2⟩) :=
  (close_session_idempotent ⟨true, false, 1, 2⟩).1 rfl

end SCPProxy
